import Mathlib

/-!
Verification of the polygon erosion-analysis pipeline: frontend drawing state
machine and centroid computation (from `src/frontend`), and the orchestration
pipeline (validator, source adapters, hotspot detector, response assembler)
described by the specification. JavaScript numbers are modelled as rationals.
-/

/-- Cesium `Cartographic` coordinate as used by the frontend: longitude,
latitude (degrees after conversion in `handleMapLeftClick`) and height. -/
structure Cartographic where
  longitude : ℚ
  latitude : ℚ
  height : ℚ
deriving DecidableEq, Repr, Inhabited

/-- Embedding of `getCentroid` from `src/frontend/src/lib/api.ts`:
`reduce((sum, c) => sum + c.longitude, 0) / coords.length` for each
coordinate, returned as `{ lat, lon }`. -/
def getCentroid (coords : List Cartographic) : ℚ × ℚ :=
  let lon := (coords.foldl (fun sum c => sum + c.longitude) 0) / (coords.length : ℚ)
  let lat := (coords.foldl (fun sum c => sum + c.latitude) 0) / (coords.length : ℚ)
  (lat, lon)

/-- The drawing-related React state of `App` in `src/frontend/src/App.tsx`:
`isDrawing`, `allPolygonVertices`, `currentPolygonVertices`. -/
structure AppState where
  isDrawing : Bool
  allPolygonVertices : List (List Cartographic)
  currentPolygonVertices : List Cartographic
deriving DecidableEq, Repr

/-- Embedding of `handleAddPolygonVertex` from `App.tsx`: appends the picked
point to `currentPolygonVertices`. -/
def handleAddPolygonVertex (s : AppState) (point : Cartographic) : AppState :=
  { s with currentPolygonVertices := s.currentPolygonVertices ++ [point] }

/-- Embedding of `handleMapLeftClick` from `App.tsx`. The Cesium pick chain
(viewer ref, pick ray, globe intersection) may fail at several points; all
those early returns are modelled by an `Option Cartographic` argument holding
the picked ground position (already converted to degrees) when the chain
succeeds. The handler returns immediately when `isDrawing` is false. -/
def handleMapLeftClick (s : AppState) (picked : Option Cartographic) : AppState :=
  if !s.isDrawing then s
  else
    match picked with
    | none => s
    | some carto => handleAddPolygonVertex s carto

/-- Embedding of `handleStartDrawClick` from `App.tsx`. React batches the
`setState` calls: each updater sees the result of earlier updaters in the same
handler, while plain reads of `isDrawing` / `currentPolygonVertices` see the
values captured by the closure (the pre-click state `s`). -/
def handleStartDrawClick (s : AppState) : AppState :=
  let s1 := if !s.isDrawing && s.currentPolygonVertices.length > 1 then
      { s with
        allPolygonVertices := s.allPolygonVertices ++ [s.currentPolygonVertices],
        currentPolygonVertices := [] }
    else s
  let s2 := { s1 with isDrawing := !s.isDrawing }
  if s.isDrawing && s.currentPolygonVertices.length > 2 then
    { s2 with currentPolygonVertices :=
        s2.currentPolygonVertices ++ [s.currentPolygonVertices.headI] }
  else s2

/-! ### Backend pipeline

The orchestration pipeline (PolygonValidator, SourceAdapter, HotspotDetector,
ResponseAssembler, Orchestrator) lives in the middleware/backend services of
the repository, which are not present here; the definitions below are
modelled from the specification describing them. -/

/-- Backend polygon vertex: a (longitude, latitude) pair. -/
structure Vertex where
  lon : ℚ
  lat : ℚ
deriving DecidableEq, Repr, Inhabited

/-- Modelled from the spec: the fatal validation error of the missing
PolygonValidator component. -/
inductive RequestError where
  | InvalidGeometry
deriving DecidableEq, Repr

/-- Modelled from the spec: the coordinate-range constraint of the missing
PolygonValidator — longitude in [-180, 180], latitude in [-90, 90]. -/
def vertexInRange (v : Vertex) : Bool :=
  decide (-180 ≤ v.lon) && decide (v.lon ≤ 180) &&
  decide (-90 ≤ v.lat) && decide (v.lat ≤ 90)

/-- Modelled from the spec: `validate(rawPolygon) -> Polygon | fails with
InvalidGeometry` of the missing PolygonValidator: the polygon must have at
least 3 vertices and every vertex in coordinate range. -/
def validate (raw : List Vertex) : Except RequestError (List Vertex) :=
  if raw.length < 3 then .error .InvalidGeometry
  else if raw.all vertexInRange then .ok raw
  else .error .InvalidGeometry

/-- Modelled from the spec: PolygonMetadata — centroid, bounding box,
area in square kilometres, vertex count. -/
structure PolygonMetadata where
  centroid : ℚ × ℚ
  min_lon : ℚ
  min_lat : ℚ
  max_lon : ℚ
  max_lat : ℚ
  area_km2 : ℚ
  num_vertices : Nat
deriving DecidableEq, Repr

/-- Minimum of a list of rationals (0 for the empty list, which validation
rules out). -/
def listMin : List ℚ → ℚ
  | [] => 0
  | h :: t => t.foldl min h

/-- Maximum of a list of rationals (0 for the empty list). -/
def listMax : List ℚ → ℚ
  | [] => 0
  | h :: t => t.foldl max h

/-- Planar shoelace cross-product sum over the closed vertex ring
(consecutive pairs plus the wrap-around pair). -/
def shoelaceSum (poly : List Vertex) : ℚ :=
  ((poly.zip (poly.rotate 1)).map (fun q => q.1.lon * q.2.lat - q.2.lon * q.1.lat)).sum

/-- Absolute value of a rational, written explicitly so that it evaluates. -/
def ratAbs (q : ℚ) : ℚ := if q < 0 then -q else q

/-- Modelled from the spec: `deriveMetadata(polygon) -> PolygonMetadata` of
the missing PolygonValidator — centroid is the arithmetic mean of the
vertices, the bounding box the component-wise min/max, and the area comes
from the standard planar shoelace polygon-area formula (deterministic; the
spec leaves the exact formula to the implementer). -/
def deriveMetadata (poly : List Vertex) : PolygonMetadata :=
  let lons := poly.map (fun v => v.lon)
  let lats := poly.map (fun v => v.lat)
  { centroid := (lons.sum / (poly.length : ℚ), lats.sum / (poly.length : ℚ)),
    min_lon := listMin lons,
    min_lat := listMin lats,
    max_lon := listMax lons,
    max_lat := listMax lats,
    area_km2 := ratAbs (shoelaceSum poly) / 2,
    num_vertices := poly.length }

/-- Modelled from the spec: `SourceResult<T>` — the tagged outcome of one
external source, either `Ok(value, elapsed)` or `Failed(errorMessage,
elapsed)`; adapters never throw past this boundary. -/
inductive SourceResult (T : Type) where
  | Ok (value : T) (elapsed : ℚ)
  | Failed (errorMessage : String) (elapsed : ℚ)
deriving DecidableEq, Repr

/-- Whether a source outcome is the `Failed` variant. -/
def SourceResult.isFailed {T : Type} : SourceResult T → Bool
  | .Ok _ _ => false
  | .Failed _ _ => true

/-- Modelled from the spec: the crop-yield sub-record of the response —
yield, crop name, location, week, coverage tag and error message. -/
structure CropYieldRecord where
  yield_t_ha : Option ℚ
  crop_name : String
  location : ℚ × ℚ
  week : Nat
  coverage : String
  error : Option String
deriving DecidableEq, Repr

/-- Modelled from the spec: the missing coverage-aware crop-yield
SourceAdapter. It distinguishes out-of-geographic-coverage (a valid,
non-error outcome carrying `coverage: out_of_coverage` and a null numeric
value with an explanatory message) from a genuine failure; the coverage test
and the underlying predictor are parameters standing for the external crop
model. -/
def cropAdapter (inCoverage : ℚ × ℚ → Bool) (predictYield : ℚ × ℚ → Nat → ℚ)
    (loc : ℚ × ℚ) (week : Nat) (elapsed : ℚ) : SourceResult CropYieldRecord :=
  if inCoverage loc then
    .Ok { yield_t_ha := some (predictYield loc week), crop_name := "Soft wheat",
          location := loc, week := week, coverage := "europe", error := none } elapsed
  else
    .Ok { yield_t_ha := none, crop_name := "Soft wheat", location := loc,
          week := week, coverage := "out_of_coverage",
          error := some "Location outside Europe coverage" } elapsed

/-- Modelled from the spec: climate context of the carbon record. -/
structure Climate where
  annual_mean_temp_c : ℚ
  annual_mean_precip_mm : ℚ
deriving DecidableEq, Repr

/-- Modelled from the spec: soil context of the carbon record. -/
structure Soil where
  classification : String
deriving DecidableEq, Repr

/-- Modelled from the spec: the carbon-sequestration sub-record of the
response. -/
structure CarbonRecord where
  carbon_rate_mg_ha_yr : Option ℚ
  location : ℚ × ℚ
  climate : Option Climate
  soil : Option Soil
  coverage : String
  error : Option String
deriving DecidableEq, Repr

/-- The five RUSLE factors. -/
inductive FactorName where
  | R
  | K
  | LS
  | C
  | P
deriving DecidableEq, Repr

/-- One rational value per RUSLE factor. -/
structure FactorVals where
  R : ℚ
  K : ℚ
  LS : ℚ
  C : ℚ
  P : ℚ
deriving DecidableEq, Repr

/-- Look up one factor's value. -/
def FactorVals.get (m : FactorVals) : FactorName → ℚ
  | .R => m.R
  | .K => m.K
  | .LS => m.LS
  | .C => m.C
  | .P => m.P

/-- Modelled from the spec: the fixed, documented tie-break priority order
LS > C > R > K > P for dominant factors, as a numeric rank. -/
def priorityRank : FactorName → Nat
  | .LS => 5
  | .C => 4
  | .R => 3
  | .K => 2
  | .P => 1

/-- The factors listed in decreasing tie-break priority. -/
def factorOrder : List FactorName := [.LS, .C, .R, .K, .P]

/-- Modelled from the spec: the dominant factor of a candidate region — the
factor with the largest relative contribution, ties broken by the fixed
priority order LS > C > R > K > P (a later factor replaces the current best
only on strictly larger contribution). -/
def dominantFactor (c : FactorVals) : FactorName :=
  factorOrder.foldl (fun best f => if c.get best < c.get f then f else best) .LS

/-- Label of a factor as it appears in reason strings. -/
def factorLabel : FactorName → String
  | .R => "R"
  | .K => "K"
  | .LS => "LS"
  | .C => "C"
  | .P => "P"

/-- Modelled from the spec: one candidate sub-region of the partitioned
erosion-estimate surface, with its statistics, per-factor relative
contributions and per-factor values. -/
structure Region where
  geometry : List Vertex
  area_ha : ℚ
  meanErosion : ℚ
  maxErosion : ℚ
  contribution : FactorVals
  factorValue : FactorVals
deriving DecidableEq, Repr

/-- Modelled from the spec: the rule-based thresholds of the HotspotDetector —
the high-risk mean-erosion threshold, one threshold per factor, and the
multiplier above which severity is `high` rather than `medium`. -/
structure Thresholds where
  meanHighRisk : ℚ
  factorLimit : FactorVals
  severeRatio : ℚ
deriving DecidableEq, Repr

/-- The factors of a region exceeding their own thresholds, in priority
order. -/
def exceedingFactors (r : Region) (th : Thresholds) : List FactorName :=
  factorOrder.filter (fun f => decide (th.factorLimit.get f < r.factorValue.get f))

/-- Modelled from the spec: a region is flagged when its mean erosion exceeds
the high-risk threshold AND at least one factor exceeds its own threshold. -/
def isHotspotRegion (r : Region) (th : Thresholds) : Bool :=
  decide (th.meanHighRisk < r.meanErosion) && !(exceedingFactors r th).isEmpty

/-- Modelled from the spec: severity tier derived from how far the region
mean exceeds the threshold. -/
def severityTier (r : Region) (th : Thresholds) : String :=
  if th.meanHighRisk * th.severeRatio < r.meanErosion then "high" else "medium"

/-- Modelled from the spec: Hotspot — sub-polygon geometry plus area, mean
and max erosion, dominant factor, severity tier and human-readable reason. -/
structure Hotspot where
  geometry : List Vertex
  area_ha : ℚ
  mean_erosion : ℚ
  max_erosion : ℚ
  dominant_factor : FactorName
  severity : String
  reason : String
deriving DecidableEq, Repr

/-- Build the hotspot emitted for a flagged region, naming the triggering
factors in the reason string. -/
def mkHotspot (r : Region) (th : Thresholds) : Hotspot :=
  { geometry := r.geometry,
    area_ha := r.area_ha,
    mean_erosion := r.meanErosion,
    max_erosion := r.maxErosion,
    dominant_factor := dominantFactor r.contribution,
    severity := severityTier r th,
    reason := "dominant factor " ++ factorLabel (dominantFactor r.contribution)
      ++ ", factors over threshold: "
      ++ String.intercalate ", " ((exceedingFactors r th).map factorLabel) }

/-- Modelled from the spec: `detect(erosionGrid, factorGrids, thresholds) ->
list<Hotspot>` of the missing HotspotDetector. When the erosion source failed
there is no grid and the detector returns the empty list; otherwise it flags
the qualifying candidate regions in order. -/
def detect (erosionGrid : Option (List Region)) (th : Thresholds) : List Hotspot :=
  match erosionGrid with
  | none => []
  | some regions => (regions.filter (fun r => isHotspotRegion r th)).map (fun r => mkHotspot r th)

/-- Modelled from the spec: ErosionSummary — the statistical aggregate of the
erosion surface. -/
structure ErosionSummary where
  mean : ℚ
  min : ℚ
  max : ℚ
  stddev : ℚ
  p50 : ℚ
  p95 : ℚ
  total_soil_loss : ℚ
deriving DecidableEq, Repr

/-- Modelled from the spec: per-factor statistics of the erosion breakdown. -/
structure FactorStats where
  mean : ℚ
  stddev : ℚ
  min : ℚ
  max : ℚ
  unit : String
  contribution_pct : ℚ
  source : String
deriving DecidableEq, Repr

/-- Modelled from the spec: the R/K/LS/C/P factor breakdown blocks. -/
structure Factors where
  R : FactorStats
  K : FactorStats
  LS : FactorStats
  C : FactorStats
  P : FactorStats
deriving DecidableEq, Repr

/-- Modelled from the spec: the gridded/statistical RUSLE output of the
erosion source — summary statistics, factor breakdown, and the candidate
regions of the erosion surface used by the HotspotDetector. -/
structure ErosionOutput where
  summary : ErosionSummary
  factors : Factors
  grid : List Region
deriving DecidableEq, Repr

/-- The grid available for hotspot detection: present only when the erosion
source succeeded. -/
def erosionGridOf : SourceResult ErosionOutput → Option (List Region)
  | .Ok out _ => some out.grid
  | .Failed _ _ => none

/-- Modelled from the spec: the fixed placeholder image (a 1x1 transparent
PNG reference) substituted when the imagery source fails. -/
def placeholderImage : String := "data:image/png;base64,placeholder-1x1-transparent"

/-- Modelled from the spec: the crop sub-record embedded when the crop source
returned `Failed` — null value, `coverage: error`, the failure message. -/
def failedCropRecord (msg : String) (loc : ℚ × ℚ) : CropYieldRecord :=
  { yield_t_ha := none, crop_name := "Soft wheat", location := loc, week := 0,
    coverage := "error", error := some msg }

/-- Modelled from the spec: the carbon sub-record embedded when the carbon
source returned `Failed` — null value and context, `coverage: error`, the
failure message. -/
def failedCarbonRecord (msg : String) (loc : ℚ × ℚ) : CarbonRecord :=
  { carbon_rate_mg_ha_yr := none, location := loc, climate := none, soil := none,
    coverage := "error", error := some msg }

/-- Modelled from the spec: ResponseDocument — the single consolidated
response constructed once per request by the ResponseAssembler. -/
structure ResponseDocument where
  success : Bool
  computation_time_sec : ℚ
  polygon : List Vertex
  polygon_metadata : PolygonMetadata
  satellite_image : Option String
  erosion : Option ErosionSummary
  factors : Option Factors
  highlights : List Hotspot
  num_hotspots : Nat
  crop_yield : CropYieldRecord
  carbon_sequestration : CarbonRecord
deriving DecidableEq, Repr

/-- Modelled from the spec: `assemble(...) -> ResponseDocument` of the missing
ResponseAssembler. Top-level success is true unless the mandatory erosion
source failed; a failed auxiliary source only degrades its own sub-fields
(null value, error message, `coverage: error`), and a failed imagery source is
replaced by the fixed placeholder image rather than a missing field. -/
def assemble (metadata : PolygonMetadata) (polygon : List Vertex)
    (erosionResult : SourceResult ErosionOutput) (hotspots : List Hotspot)
    (cropResult : SourceResult CropYieldRecord) (carbonResult : SourceResult CarbonRecord)
    (imageResult : SourceResult String) (elapsedTime : ℚ) : ResponseDocument :=
  { success := !erosionResult.isFailed,
    computation_time_sec := elapsedTime,
    polygon := polygon,
    polygon_metadata := metadata,
    satellite_image := some (match imageResult with
      | .Ok img _ => img
      | .Failed _ _ => placeholderImage),
    erosion := match erosionResult with
      | .Ok out _ => some out.summary
      | .Failed _ _ => none,
    factors := match erosionResult with
      | .Ok out _ => some out.factors
      | .Failed _ _ => none,
    highlights := hotspots,
    num_hotspots := hotspots.length,
    crop_yield := match cropResult with
      | .Ok v _ => v
      | .Failed msg _ => failedCropRecord msg metadata.centroid,
    carbon_sequestration := match carbonResult with
      | .Ok v _ => v
      | .Failed msg _ => failedCarbonRecord msg metadata.centroid }

/-- Modelled from the spec: the four external computation sources consumed by
the Orchestrator, each already wrapped by its SourceAdapter (so each one
always materializes a `SourceResult`). -/
structure SourceDeps where
  erosionSrc : PolygonMetadata → SourceResult ErosionOutput
  cropSrc : PolygonMetadata → SourceResult CropYieldRecord
  carbonSrc : PolygonMetadata → SourceResult CarbonRecord
  imagerySrc : PolygonMetadata → SourceResult String

/-- The four source adapters, for the invocation trace of a request. -/
inductive SourceName where
  | erosion
  | crop
  | carbon
  | imagery
deriving DecidableEq, Repr

/-- Modelled from the spec: the Orchestrator's request handling — validate,
derive metadata, fan out to the four adapters, detect hotspots on the erosion
output, assemble. The second component records which source adapters were
invoked while serving the request; a polygon rejected by validation
short-circuits before any adapter runs and produces no response body. -/
def handleRequest (d : SourceDeps) (th : Thresholds) (raw : List Vertex)
    (elapsed : ℚ) : Except RequestError ResponseDocument × List SourceName :=
  match validate raw with
  | .error e => (.error e, [])
  | .ok poly =>
      let m := deriveMetadata poly
      let er := d.erosionSrc m
      let cr := d.cropSrc m
      let car := d.carbonSrc m
      let im := d.imagerySrc m
      let hotspots := detect (erosionGridOf er) th
      (.ok (assemble m poly er hotspots cr car im elapsed),
       [.erosion, .crop, .carbon, .imagery])

/-- Modelled from the spec: the fan-out/fan-in state of the Orchestrator for
one request — one pending/materialized slot per adapter, plus the assembled
response once ResponseAssembler has run. -/
structure OrchState where
  er : Option (SourceResult ErosionOutput)
  cr : Option (SourceResult CropYieldRecord)
  car : Option (SourceResult CarbonRecord)
  im : Option (SourceResult String)
  response : Option ResponseDocument
deriving DecidableEq, Repr

/-- The initial orchestration state: all four adapter calls in flight, no
response. -/
def initOrchState : OrchState := ⟨none, none, none, none, none⟩

/-- Modelled from the spec: one scheduling step of the concurrent fan-out.
Adapter results materialize in any order, each into its own slot; the
assembly step is enabled only when every slot holds a materialized
`SourceResult` (success or failure), and then runs HotspotDetector and
ResponseAssembler on the joined results. -/
inductive OrchStep (m : PolygonMetadata) (poly : List Vertex) (th : Thresholds)
    (t : ℚ) : OrchState → OrchState → Prop where
  | erosionDone (s : OrchState) (r : SourceResult ErosionOutput) :
      s.er = none → OrchStep m poly th t s { s with er := some r }
  | cropDone (s : OrchState) (r : SourceResult CropYieldRecord) :
      s.cr = none → OrchStep m poly th t s { s with cr := some r }
  | carbonDone (s : OrchState) (r : SourceResult CarbonRecord) :
      s.car = none → OrchStep m poly th t s { s with car := some r }
  | imageryDone (s : OrchState) (r : SourceResult String) :
      s.im = none → OrchStep m poly th t s { s with im := some r }
  | assembleDone (s : OrchState) (er : SourceResult ErosionOutput)
      (cr : SourceResult CropYieldRecord) (car : SourceResult CarbonRecord)
      (im : SourceResult String) :
      s.er = some er → s.cr = some cr → s.car = some car → s.im = some im →
      s.response = none →
      OrchStep m poly th t s
        { s with response := some (assemble m poly er (detect (erosionGridOf er) th) cr car im t) }

/-- States reachable by the orchestration of one request. -/
inductive OrchReachable (m : PolygonMetadata) (poly : List Vertex)
    (th : Thresholds) (t : ℚ) : OrchState → Prop where
  | init : OrchReachable m poly th t initOrchState
  | step {s s2 : OrchState} : OrchReachable m poly th t s →
      OrchStep m poly th t s s2 → OrchReachable m poly th t s2

/-- A concrete valid triangle used to instantiate the theorems. -/
def samplePoly : List Vertex := [⟨0, 0⟩, ⟨1, 0⟩, ⟨0, 1⟩]

/-- A concrete collinear polygon: three distinct in-range vertices on one
line. -/
def collinearPoly : List Vertex := [⟨0, 0⟩, ⟨1, 0⟩, ⟨2, 0⟩]

/-- Concrete erosion summary statistics. -/
def sampleSummary : ErosionSummary := ⟨4, 1, 6, 1, 4, 5, 100⟩

/-- Concrete per-factor statistics. -/
def sampleStats : FactorStats := ⟨1, 0, 1, 1, "dimensionless", 20, "sample"⟩

/-- Concrete factor breakdown. -/
def sampleFactors : Factors := ⟨sampleStats, sampleStats, sampleStats, sampleStats, sampleStats⟩

/-- Concrete erosion output with an empty candidate grid. -/
def sampleErosionOut : ErosionOutput := ⟨sampleSummary, sampleFactors, []⟩

/-- Concrete in-coverage crop record. -/
def sampleCrop : CropYieldRecord := ⟨some 5, "Soft wheat", (0, 0), 25, "europe", none⟩

/-- Concrete carbon record. -/
def sampleCarbon : CarbonRecord :=
  ⟨some (3 / 2), (0, 0), some ⟨10, 785⟩, some ⟨"Cambisols"⟩, "global", none⟩

/-- Concrete hotspot thresholds (mean over 10, LS over 5, C over 0.12). -/
def sampleTh : Thresholds := ⟨10, ⟨1000, 1, 5, 12 / 100, 2⟩, 2⟩

/-- Concrete source dependencies whose four adapters all succeed. -/
def sampleDeps : SourceDeps :=
  { erosionSrc := fun _ => .Ok sampleErosionOut 1,
    cropSrc := fun _ => .Ok sampleCrop 1,
    carbonSrc := fun _ => .Ok sampleCarbon 1,
    imagerySrc := fun _ => .Ok "data:image/png;base64,sample" 1 }

/-- The orchestration state after the four sample adapter results have
materialized, before assembly. -/
def sFilled : OrchState :=
  ⟨some (.Ok sampleErosionOut 1), some (.Ok sampleCrop 1), some (.Ok sampleCarbon 1),
   some (.Ok "data:image/png;base64,sample" 1), none⟩

/-- The response assembled from the four sample adapter results. -/
def sampleDoc : ResponseDocument :=
  assemble (deriveMetadata samplePoly) samplePoly (.Ok sampleErosionOut 1)
    (detect (erosionGridOf (.Ok sampleErosionOut 1)) sampleTh)
    (.Ok sampleCrop 1) (.Ok sampleCarbon 1) (.Ok "data:image/png;base64,sample" 1) 2

/-- The final orchestration state of the sample request. -/
def sDone : OrchState := { sFilled with response := some sampleDoc }

/-! ### Theorems -/

lemma foldl_add_section (g : Cartographic → ℚ) :
    ∀ (l : List Cartographic) (a : ℚ),
      l.foldl (fun sum c => sum + g c) a = a + (l.map g).sum := by
  intro l
  induction l with
  | nil => intro a; simp
  | cons c t ih =>
      intro a
      rw [List.foldl_cons, ih (a + g c), List.map_cons, List.sum_cons]
      ring

/-- C7: for a validated polygon (at least 3 vertices), `getCentroid` returns
the arithmetic mean of the vertices: the sum of latitudes divided by the
vertex count and the sum of longitudes divided by the vertex count. -/
theorem getCentroid_is_arithmetic_mean (coords : List Cartographic)
    (h : 3 ≤ coords.length) :
    getCentroid coords =
      ((coords.map (fun c => c.latitude)).sum / (coords.length : ℚ),
       (coords.map (fun c => c.longitude)).sum / (coords.length : ℚ)) := by
  unfold getCentroid
  rw [foldl_add_section (fun c => c.longitude) coords 0,
      foldl_add_section (fun c => c.latitude) coords 0]
  simp

/-- Witness for C7 at a concrete triangle. -/
theorem getCentroid_is_arithmetic_mean_witness :
    getCentroid [⟨0, 0, 0⟩, ⟨3, 3, 0⟩, ⟨3, 0, 0⟩] = ((0 + 3 + 0) / 3, (0 + 3 + 3) / 3) := by
  have h := getCentroid_is_arithmetic_mean [⟨0, 0, 0⟩, ⟨3, 3, 0⟩, ⟨3, 0, 0⟩] (by decide)
  rw [h]
  norm_num

/-- C10: a map left-click received while `isDrawing` is false leaves the whole
drawing state unchanged (in particular no vertex is added and
`allPolygonVertices` is not modified), whatever the pick chain produced. -/
theorem handleMapLeftClick_not_drawing (s : AppState) (picked : Option Cartographic)
    (h : s.isDrawing = false) : handleMapLeftClick s picked = s := by
  unfold handleMapLeftClick
  rw [h]
  simp

/-- Witness for C10 at a concrete state and picked point. -/
theorem handleMapLeftClick_not_drawing_witness :
    handleMapLeftClick ⟨false, [], [⟨1, 2, 0⟩]⟩ (some ⟨5, 6, 0⟩) = ⟨false, [], [⟨1, 2, 0⟩]⟩ :=
  handleMapLeftClick_not_drawing ⟨false, [], [⟨1, 2, 0⟩]⟩ (some ⟨5, 6, 0⟩) rfl

/-- C9 counterexample: finishing a drawing whose three recorded vertices are
all the same point produces a closed ring with only one distinct vertex, so a
completed polygon need not retain at least 3 distinct vertices. -/
theorem finish_drawing_not_three_distinct :
    (handleStartDrawClick ⟨true, [], [⟨0, 0, 0⟩, ⟨0, 0, 0⟩, ⟨0, 0, 0⟩]⟩).isDrawing = false ∧
    (handleStartDrawClick
        ⟨true, [], [⟨0, 0, 0⟩, ⟨0, 0, 0⟩, ⟨0, 0, 0⟩]⟩).currentPolygonVertices.dedup.length < 3 := by
  constructor
  · rfl
  · decide

/-- C9 amended: when drawing finishes with more than 2 recorded vertices, the
first recorded vertex is appended as the last one, so the completed polygon
satisfies first = last and keeps its at-least-3 recorded vertices (plus the
closing copy); the recorded vertices need not be distinct. -/
theorem finish_drawing_closes_ring (s : AppState) (h1 : s.isDrawing = true)
    (h2 : 2 < s.currentPolygonVertices.length) :
    (handleStartDrawClick s).currentPolygonVertices.head? =
        some s.currentPolygonVertices.headI ∧
    (handleStartDrawClick s).currentPolygonVertices.getLast? =
        some s.currentPolygonVertices.headI ∧
    (handleStartDrawClick s).currentPolygonVertices.length =
        s.currentPolygonVertices.length + 1 ∧
    3 ≤ s.currentPolygonVertices.length := by
  obtain ⟨v, t, hvt⟩ : ∃ v t, s.currentPolygonVertices = v :: t := by
    cases hc : s.currentPolygonVertices with
    | nil => rw [hc] at h2; simp at h2
    | cons v t => exact ⟨v, t, rfl⟩
  have hres : (handleStartDrawClick s).currentPolygonVertices =
      s.currentPolygonVertices ++ [s.currentPolygonVertices.headI] := by
    unfold handleStartDrawClick
    simp [h1, h2]
  refine ⟨?_, ?_, ?_, ?_⟩
  · rw [hres, hvt]; simp
  · rw [hres]; simp [List.getLast?_concat]
  · rw [hres]; simp
  · omega

/-- Witness for the amended C9 at a concrete three-vertex drawing. -/
theorem finish_drawing_closes_ring_witness :
    (handleStartDrawClick
        ⟨true, [], [⟨0, 0, 0⟩, ⟨1, 0, 0⟩, ⟨0, 1, 0⟩]⟩).currentPolygonVertices.head? =
      some (⟨0, 0, 0⟩ : Cartographic) :=
  (finish_drawing_closes_ring ⟨true, [], [⟨0, 0, 0⟩, ⟨1, 0, 0⟩, ⟨0, 1, 0⟩]⟩ rfl (by decide)).1


/-- C1: top-level success of the assembled response is true exactly when the
mandatory erosion source did not fail; a failed auxiliary source (crop,
carbon, imagery) only replaces its own sub-fields with null/error markers,
and the auxiliary outcomes never influence the success flag or the erosion
fields. -/
theorem assemble_success_policy (m : PolygonMetadata) (p : List Vertex)
    (er : SourceResult ErosionOutput) (hs : List Hotspot)
    (cr : SourceResult CropYieldRecord) (car : SourceResult CarbonRecord)
    (im : SourceResult String) (t : ℚ) :
    ((assemble m p er hs cr car im t).success = true ↔ er.isFailed = false) ∧
    (∀ msg e, cr = .Failed msg e →
      (assemble m p er hs cr car im t).crop_yield = failedCropRecord msg m.centroid) ∧
    (∀ msg e, car = .Failed msg e →
      (assemble m p er hs cr car im t).carbon_sequestration = failedCarbonRecord msg m.centroid) ∧
    (∀ msg e, im = .Failed msg e →
      (assemble m p er hs cr car im t).satellite_image = some placeholderImage) ∧
    (∀ cr2 car2 im2,
      (assemble m p er hs cr2 car2 im2 t).success = (assemble m p er hs cr car im t).success ∧
      (assemble m p er hs cr2 car2 im2 t).erosion = (assemble m p er hs cr car im t).erosion ∧
      (assemble m p er hs cr2 car2 im2 t).factors = (assemble m p er hs cr car im t).factors) := by
  refine ⟨?_, ?_, ?_, ?_, ?_⟩
  · cases er <;> simp [assemble, SourceResult.isFailed]
  · intro msg e hcr; subst hcr; simp [assemble]
  · intro msg e hcar; subst hcar; simp [assemble]
  · intro msg e him; subst him; simp [assemble]
  · intro cr2 car2 im2; exact ⟨rfl, rfl, rfl⟩

/-- Witness for C1: with a successful erosion source and a failed crop
source, success stays true and the crop sub-record carries the error
markers. -/
theorem assemble_success_policy_witness :
    (assemble (deriveMetadata samplePoly) samplePoly (.Ok sampleErosionOut 1) []
        (.Failed "crop model crashed" 1) (.Ok sampleCarbon 1) (.Failed "no credentials" 1) 2).crop_yield
      = failedCropRecord "crop model crashed" (deriveMetadata samplePoly).centroid ∧
    (assemble (deriveMetadata samplePoly) samplePoly (.Ok sampleErosionOut 1) []
        (.Failed "crop model crashed" 1) (.Ok sampleCarbon 1) (.Failed "no credentials" 1) 2).success
      = true :=
  ⟨(assemble_success_policy (deriveMetadata samplePoly) samplePoly (.Ok sampleErosionOut 1) []
      (.Failed "crop model crashed" 1) (.Ok sampleCarbon 1) (.Failed "no credentials" 1) 2).2.1
      "crop model crashed" 1 rfl,
   (assemble_success_policy (deriveMetadata samplePoly) samplePoly (.Ok sampleErosionOut 1) []
      (.Failed "crop model crashed" 1) (.Ok sampleCarbon 1) (.Failed "no credentials" 1) 2).1.mpr rfl⟩

/-- C2: a polygon with fewer than 3 vertices or with a vertex out of
coordinate range is rejected with InvalidGeometry: no source adapter is
invoked (empty invocation trace) and no response body is produced. -/
theorem invalid_polygon_rejected_before_fanout (d : SourceDeps) (th : Thresholds)
    (raw : List Vertex) (t : ℚ)
    (h : raw.length < 3 ∨ ∃ v ∈ raw, vertexInRange v = false) :
    handleRequest d th raw t = (.error .InvalidGeometry, []) := by
  have hval : validate raw = .error .InvalidGeometry := by
    unfold validate
    rcases h with hlen | ⟨v, hv, hrange⟩
    · rw [if_pos hlen]
    · by_cases hlen : raw.length < 3
      · rw [if_pos hlen]
      · rw [if_neg hlen, if_neg]
        intro hall
        rw [List.all_eq_true] at hall
        exact absurd (hall v hv) (by rw [hrange]; decide)
  unfold handleRequest
  rw [hval]

/-- Witness for C2: a two-vertex polygon is rejected with no adapter
invoked. -/
theorem invalid_polygon_rejected_before_fanout_witness :
    handleRequest sampleDeps sampleTh [⟨0, 0⟩, ⟨1, 1⟩] 1 = (.error .InvalidGeometry, []) :=
  invalid_polygon_rejected_before_fanout sampleDeps sampleTh [⟨0, 0⟩, ⟨1, 1⟩] 1
    (Or.inl (by decide))

/-- C3: when the crop-yield source reports the location outside its training
coverage, the adapter materializes an `Ok` result (a semantic success, never
`Failed`), and the assembled response's crop sub-record has a null yield,
coverage `out_of_coverage` and a non-null explanatory error message. -/
theorem crop_out_of_coverage (inCoverage : ℚ × ℚ → Bool) (predictYield : ℚ × ℚ → Nat → ℚ)
    (loc : ℚ × ℚ) (week : Nat) (el : ℚ) (m : PolygonMetadata) (p : List Vertex)
    (er : SourceResult ErosionOutput) (hs : List Hotspot) (car : SourceResult CarbonRecord)
    (im : SourceResult String) (t : ℚ) (h : inCoverage loc = false) :
    (cropAdapter inCoverage predictYield loc week el).isFailed = false ∧
    (assemble m p er hs (cropAdapter inCoverage predictYield loc week el) car im t).crop_yield.yield_t_ha
      = none ∧
    (assemble m p er hs (cropAdapter inCoverage predictYield loc week el) car im t).crop_yield.coverage
      = "out_of_coverage" ∧
    (assemble m p er hs (cropAdapter inCoverage predictYield loc week el) car im t).crop_yield.error
      ≠ none := by
  unfold cropAdapter
  rw [h]
  simp [assemble, SourceResult.isFailed]

/-- Witness for C3: a coverage test that rejects every location. -/
theorem crop_out_of_coverage_witness :
    (assemble (deriveMetadata samplePoly) samplePoly (.Ok sampleErosionOut 1) []
        (cropAdapter (fun _ => false) (fun _ _ => 5) (0, 0) 25 1)
        (.Ok sampleCarbon 1) (.Ok "img" 1) 2).crop_yield.coverage = "out_of_coverage" :=
  (crop_out_of_coverage (fun _ => false) (fun _ _ => 5) (0, 0) 25 1
    (deriveMetadata samplePoly) samplePoly (.Ok sampleErosionOut 1) []
    (.Ok sampleCarbon 1) (.Ok "img" 1) 2 rfl).2.2.1

/-- C4: the satellite image field of every assembled response is present and
non-null; when the imagery adapter failed, it holds the fixed placeholder
image. -/
theorem satellite_image_always_present (m : PolygonMetadata) (p : List Vertex)
    (er : SourceResult ErosionOutput) (hs : List Hotspot)
    (cr : SourceResult CropYieldRecord) (car : SourceResult CarbonRecord)
    (im : SourceResult String) (t : ℚ) :
    (assemble m p er hs cr car im t).satellite_image ≠ none ∧
    (∀ msg e, im = .Failed msg e →
      (assemble m p er hs cr car im t).satellite_image = some placeholderImage) := by
  constructor
  · simp [assemble]
  · intro msg e him; subst him; simp [assemble]

/-- Witness for C4: a failed imagery source yields the placeholder image. -/
theorem satellite_image_always_present_witness :
    (assemble (deriveMetadata samplePoly) samplePoly (.Ok sampleErosionOut 1) []
        (.Ok sampleCrop 1) (.Ok sampleCarbon 1) (.Failed "missing credentials" 1) 2).satellite_image
      = some placeholderImage :=
  (satellite_image_always_present (deriveMetadata samplePoly) samplePoly (.Ok sampleErosionOut 1)
    [] (.Ok sampleCrop 1) (.Ok sampleCarbon 1) (.Failed "missing credentials" 1) 2).2
    "missing credentials" 1 rfl

lemma dominantFactor_spec (c : FactorVals) :
    (∀ f, c.get f ≤ c.get (dominantFactor c)) ∧
    (∀ f, c.get f = c.get (dominantFactor c) →
      priorityRank f ≤ priorityRank (dominantFactor c)) := by
  unfold dominantFactor factorOrder
  simp only [List.foldl]
  rw [if_neg (lt_irrefl (c.get .LS))]
  split_ifs <;>
    refine ⟨?_, ?_⟩ <;> intro f <;> cases f <;>
      simp only [FactorVals.get, priorityRank] at * <;>
      first
        | linarith
        | (intro heq; first | omega | (exfalso; linarith))

/-- C6: the HotspotDetector is deterministic — identical grids and thresholds
yield identical ordered hotspot lists — and the dominant factor of a region
maximizes the contribution percentage, with exact ties resolved by the fixed
priority order LS > C > R > K > P (any factor tying the dominant one ranks no
higher). -/
theorem hotspot_detection_deterministic (g1 g2 : Option (List Region))
    (th1 th2 : Thresholds) (c : FactorVals) :
    (g1 = g2 → th1 = th2 → detect g1 th1 = detect g2 th2) ∧
    (∀ f, c.get f ≤ c.get (dominantFactor c)) ∧
    (∀ f, c.get f = c.get (dominantFactor c) →
      priorityRank f ≤ priorityRank (dominantFactor c)) := by
  refine ⟨fun hg hth => by rw [hg, hth], (dominantFactor_spec c).1, (dominantFactor_spec c).2⟩

/-- Witness for C6 at a three-way exact tie between R, LS and C: the dominant
factor is LS and the tied factor C ranks below it. -/
theorem hotspot_detection_deterministic_witness :
    detect none sampleTh = detect none sampleTh ∧
    priorityRank .C ≤ priorityRank (dominantFactor ⟨3, 1, 3, 3, 0⟩) :=
  ⟨(hotspot_detection_deterministic none none sampleTh sampleTh ⟨3, 1, 3, 3, 0⟩).1 rfl rfl,
   (hotspot_detection_deterministic none none sampleTh sampleTh ⟨3, 1, 3, 3, 0⟩).2.2 .C (by decide)⟩

lemma foldl_min_le_init (t : List ℚ) : ∀ a : ℚ, t.foldl min a ≤ a := by
  induction t with
  | nil => intro a; simp
  | cons h t ih =>
      intro a
      rw [List.foldl_cons]
      exact le_trans (ih (min a h)) (min_le_left a h)

lemma foldl_min_le_mem (t : List ℚ) : ∀ a x : ℚ, x ∈ t → t.foldl min a ≤ x := by
  induction t with
  | nil => intro a x hx; cases hx
  | cons h t ih =>
      intro a x hx
      rw [List.foldl_cons]
      rcases List.mem_cons.mp hx with hx | hx
      · subst hx
        exact le_trans (foldl_min_le_init t (min a x)) (min_le_right a x)
      · exact ih (min a h) x hx

lemma listMin_le (l : List ℚ) (x : ℚ) (hx : x ∈ l) : listMin l ≤ x := by
  cases l with
  | nil => cases hx
  | cons h t =>
      unfold listMin
      rcases List.mem_cons.mp hx with hx | hx
      · subst hx; exact foldl_min_le_init t x
      · exact foldl_min_le_mem t h x hx

lemma init_le_foldl_max (t : List ℚ) : ∀ a : ℚ, a ≤ t.foldl max a := by
  induction t with
  | nil => intro a; simp
  | cons h t ih =>
      intro a
      rw [List.foldl_cons]
      exact le_trans (le_max_left a h) (ih (max a h))

lemma mem_le_foldl_max (t : List ℚ) : ∀ a x : ℚ, x ∈ t → x ≤ t.foldl max a := by
  induction t with
  | nil => intro a x hx; cases hx
  | cons h t ih =>
      intro a x hx
      rw [List.foldl_cons]
      rcases List.mem_cons.mp hx with hx | hx
      · subst hx
        exact le_trans (le_max_right a x) (init_le_foldl_max t (max a x))
      · exact ih (max a h) x hx

lemma le_listMax (l : List ℚ) (x : ℚ) (hx : x ∈ l) : x ≤ listMax l := by
  cases l with
  | nil => cases hx
  | cons h t =>
      unfold listMax
      rcases List.mem_cons.mp hx with hx | hx
      · subst hx; exact init_le_foldl_max t x
      · exact mem_le_foldl_max t h x hx

/-- C8 counterexample: the collinear polygon (0,0), (1,0), (2,0) passes
validation (3 distinct in-range vertices) yet its derived planar area is 0,
so `area_km2 > 0` does not hold for every validated polygon. -/
theorem collinear_polygon_zero_area :
    validate collinearPoly = .ok collinearPoly ∧
    ¬(0 < (deriveMetadata collinearPoly).area_km2) := by
  constructor
  · rfl
  · have harea : (deriveMetadata collinearPoly).area_km2 = 0 := by
      norm_num [deriveMetadata, shoelaceSum, collinearPoly, List.rotate, ratAbs]
    rw [harea]
    exact lt_irrefl 0

/-- C8 amended: for every polygon that passes validation, the derived
metadata satisfies `area_km2 ≥ 0` (zero being reached by degenerate
collinear rings) and the bounding box contains every input vertex. -/
theorem valid_polygon_metadata_bounds (raw poly : List Vertex)
    (h : validate raw = .ok poly) :
    0 ≤ (deriveMetadata poly).area_km2 ∧
    ∀ v ∈ poly,
      (deriveMetadata poly).min_lon ≤ v.lon ∧ v.lon ≤ (deriveMetadata poly).max_lon ∧
      (deriveMetadata poly).min_lat ≤ v.lat ∧ v.lat ≤ (deriveMetadata poly).max_lat := by
  constructor
  · unfold deriveMetadata
    simp only
    have habs : 0 ≤ ratAbs (shoelaceSum poly) := by
      unfold ratAbs
      split_ifs with hneg
      · linarith
      · linarith
    linarith
  · intro v hv
    unfold deriveMetadata
    simp only
    refine ⟨listMin_le _ _ ?_, le_listMax _ _ ?_, listMin_le _ _ ?_, le_listMax _ _ ?_⟩ <;>
      exact List.mem_map_of_mem _ hv

/-- Witness for the amended C8 at a concrete valid triangle and its first
vertex. -/
theorem valid_polygon_metadata_bounds_witness :
    0 ≤ (deriveMetadata samplePoly).area_km2 ∧
    (deriveMetadata samplePoly).min_lon ≤ (0 : ℚ) :=
  ⟨(valid_polygon_metadata_bounds samplePoly samplePoly rfl).1,
   ((valid_polygon_metadata_bounds samplePoly samplePoly rfl).2
      ⟨0, 0⟩ (by decide)).1⟩

/-- C5: in every reachable orchestration state that carries an assembled
response, all four source slots (erosion, crop, carbon, imagery) hold a
materialized outcome, and the response is exactly the assembly of those four
outcomes (with hotspot detection run on the erosion result) — the
Orchestrator never assembles while a sibling result is pending, and the
caller never receives a partial response. -/
theorem response_only_after_all_sources (m : PolygonMetadata) (poly : List Vertex)
    (th : Thresholds) (t : ℚ) (s : OrchState) (hr : OrchReachable m poly th t s) :
    ∀ doc : ResponseDocument, s.response = some doc →
      s.er ≠ none ∧ s.cr ≠ none ∧ s.car ≠ none ∧ s.im ≠ none ∧
      ∀ er cr car im, s.er = some er → s.cr = some cr → s.car = some car →
        s.im = some im →
        doc = assemble m poly er (detect (erosionGridOf er) th) cr car im t := by
  induction hr with
  | init =>
      intro doc hdoc
      exact absurd hdoc (by simp [initOrchState])
  | step hprev hstep ih =>
      cases hstep with
      | erosionDone r hnone =>
          intro doc hdoc
          exact absurd hnone (ih doc hdoc).1
      | cropDone r hnone =>
          intro doc hdoc
          exact absurd hnone (ih doc hdoc).2.1
      | carbonDone r hnone =>
          intro doc hdoc
          exact absurd hnone (ih doc hdoc).2.2.1
      | imageryDone r hnone =>
          intro doc hdoc
          exact absurd hnone (ih doc hdoc).2.2.2.1
      | assembleDone er cr car im h1 h2 h3 h4 h5 =>
          intro doc hdoc
          have hd : assemble m poly er (detect (erosionGridOf er) th) cr car im t = doc :=
            Option.some.inj hdoc
          refine ⟨?_, ?_, ?_, ?_, ?_⟩
          · exact fun hcon => Option.some_ne_none er (h1.symm.trans hcon)
          · exact fun hcon => Option.some_ne_none cr (h2.symm.trans hcon)
          · exact fun hcon => Option.some_ne_none car (h3.symm.trans hcon)
          · exact fun hcon => Option.some_ne_none im (h4.symm.trans hcon)
          · intro er2 cr2 car2 im2 he hc hca hi
            have he2 : some er = some er2 := h1.symm.trans he
            have hc2 : some cr = some cr2 := h2.symm.trans hc
            have hca2 : some car = some car2 := h3.symm.trans hca
            have hi2 : some im = some im2 := h4.symm.trans hi
            cases Option.some.inj he2
            cases Option.some.inj hc2
            cases Option.some.inj hca2
            cases Option.some.inj hi2
            exact hd.symm

lemma sampleReachable :
    OrchReachable (deriveMetadata samplePoly) samplePoly sampleTh 2 sDone :=
  OrchReachable.step
    (OrchReachable.step
      (OrchReachable.step
        (OrchReachable.step
          (OrchReachable.step OrchReachable.init
            (OrchStep.erosionDone initOrchState (.Ok sampleErosionOut 1) rfl))
          (OrchStep.cropDone
            ⟨some (.Ok sampleErosionOut 1), none, none, none, none⟩
            (.Ok sampleCrop 1) rfl))
        (OrchStep.carbonDone
          ⟨some (.Ok sampleErosionOut 1), some (.Ok sampleCrop 1), none, none, none⟩
          (.Ok sampleCarbon 1) rfl))
      (OrchStep.imageryDone
        ⟨some (.Ok sampleErosionOut 1), some (.Ok sampleCrop 1), some (.Ok sampleCarbon 1),
         none, none⟩
        (.Ok "data:image/png;base64,sample" 1) rfl))
    (OrchStep.assembleDone sFilled (.Ok sampleErosionOut 1) (.Ok sampleCrop 1)
      (.Ok sampleCarbon 1) (.Ok "data:image/png;base64,sample" 1) rfl rfl rfl rfl rfl)

/-- Witness for C5: the sample orchestration run reaches its assembled state
with every slot materialized, and its response is the assembly of the four
materialized outcomes. -/
theorem response_only_after_all_sources_witness :
    sDone.er ≠ none ∧
    sampleDoc = assemble (deriveMetadata samplePoly) samplePoly (.Ok sampleErosionOut 1)
      (detect (erosionGridOf (.Ok sampleErosionOut 1)) sampleTh)
      (.Ok sampleCrop 1) (.Ok sampleCarbon 1) (.Ok "data:image/png;base64,sample" 1) 2 :=
  ⟨(response_only_after_all_sources (deriveMetadata samplePoly) samplePoly sampleTh 2 sDone
      sampleReachable sampleDoc rfl).1,
   (response_only_after_all_sources (deriveMetadata samplePoly) samplePoly sampleTh 2 sDone
      sampleReachable sampleDoc rfl).2.2.2.2 (.Ok sampleErosionOut 1) (.Ok sampleCrop 1)
      (.Ok sampleCarbon 1) (.Ok "data:image/png;base64,sample" 1) rfl rfl rfl rfl⟩
